import Mathlib

/-!
# Skindentity: verification of the skin-compositing and caching pipeline

Shallow embedding of `main.py` of the Skindentity HTTP service: the skin
normalizer (`skin_from_url`), the cache-key derivation, the margin and
upscale post-processing steps, and the source-selection / error-handling
logic of `api_template`.  Images are modelled as rectangular bitmaps with a
total pixel function; Python strings are modelled as Lean `String`s
(sequences of characters), and Python's negative-index slicing is spelled
out on the character list.
-/

set_option autoImplicit false

namespace Skindentity

/-- A pixel: red, green, blue, alpha channel values. -/
structure RGBA where
  r : Nat
  g : Nat
  b : Nat
  a : Nat
deriving DecidableEq, Repr

/-- The all-zero pixel that `PIL.Image.new('RGBA', size)` fills a fresh
canvas with: fully transparent black. -/
def transparent : RGBA := ⟨0, 0, 0, 0⟩

/-- The pixel mode of a PIL image; we only track whether it is `RGBA`. -/
inductive ImgMode where
  | rgba : ImgMode
  | other : String → ImgMode
deriving DecidableEq, Repr

/-- A PIL image: dimensions, mode, and a total pixel function (only the
values at coordinates inside the dimensions are meaningful). -/
structure Image where
  width : Nat
  height : Nat
  mode : ImgMode
  pix : Nat → Nat → RGBA

/-- `image.size` of PIL: the pair (width, height). -/
def Image.size (img : Image) : Nat × Nat := (img.width, img.height)

/-- `image.convert('RGBA')` (main.py line 74): same dimensions, pixels
reinterpreted in RGBA mode. -/
def convertRGBA (img : Image) : Image :=
  { img with mode := ImgMode.rgba }

/-- Modelled from the spec: `old_to_new_skin` lives in `renders.py`, which
is not under `src/`; §4.1 of the spec says it "copies the legacy
single-layer limb regions into the modern dual-layer (overlay-capable)
64×64 layout, leaving newly-created regions transparent" and that its
"exact pixel mapping is a fixed external algorithm and is not redefined
here".  We model it as producing the 64×64 layout whose top half is the
legacy image, with the remaining regions transparent; the external
limb-region copy is not pinned down by the spec and no claim here depends
on it — only the output dimensions (64, 64) matter below. -/
def old_to_new_skin (img : Image) : Image :=
  { width := 64
    height := 64
    mode := ImgMode.rgba
    pix := fun x y => if y < 32 then img.pix x y else transparent }

/-- The exceptions `skin_from_url` raises (main.py lines 17-20). -/
inductive SkinFetchExc where
  | urlError : SkinFetchExc
  | imageSizeError : SkinFetchExc
deriving DecidableEq, Repr

/-- The possible outcomes of `urlopen` + `Image.open` on a skin URL
(main.py lines 68-76): the URL is malformed (`ValueError`), the bytes are
not a recognizable image (`UnidentifiedImageError`), or an image decodes. -/
inductive Fetched where
  | valueError : Fetched
  | unidentifiedImage : Fetched
  | decoded : Image → Fetched

/-- `skin_from_url` (main.py lines 58-81): convert the decoded image to
RGBA, upgrade a (64, 32) legacy skin via `old_to_new_skin`, and reject the
result unless it is exactly (64, 64). -/
def skin_from_url (fetched : Fetched) : Except SkinFetchExc Image :=
  match fetched with
  | Fetched.valueError => Except.error SkinFetchExc.urlError
  | Fetched.unidentifiedImage => Except.error SkinFetchExc.urlError
  | Fetched.decoded raw =>
    let image := convertRGBA raw
    let image := if image.size = (64, 32) then old_to_new_skin image else image
    if image.size ≠ (64, 64) then Except.error SkinFetchExc.imageSizeError
    else Except.ok image

/-- A concrete legacy-sized (64, 32) test image. -/
def legacySample : Image :=
  ⟨64, 32, ImgMode.other "P", fun x y => ⟨x, y, 0, 255⟩⟩

/-- A concrete wrong-sized (10, 10) test image. -/
def tinySample : Image :=
  ⟨10, 10, ImgMode.other "P", fun _ _ => transparent⟩

/-- Normalizer facts shared by several theorems below: every image
`skin_from_url` returns is RGBA and exactly (64, 64); a decoded (64, 32)
image is first upgraded by `old_to_new_skin` and then subjected to the
(64, 64) check; an image that is neither (64, 32) nor (64, 64) fails with
`ImageSizeError`. -/
theorem skin_from_url_spec :
    (∀ (f : Fetched) (img : Image), skin_from_url f = Except.ok img →
      img.size = (64, 64) ∧ img.mode = ImgMode.rgba) ∧
    (∀ raw : Image, raw.size = (64, 32) →
      skin_from_url (Fetched.decoded raw) =
        (if (old_to_new_skin (convertRGBA raw)).size ≠ (64, 64)
         then Except.error SkinFetchExc.imageSizeError
         else Except.ok (old_to_new_skin (convertRGBA raw)))) ∧
    (∀ raw : Image, raw.size ≠ (64, 32) → raw.size ≠ (64, 64) →
      skin_from_url (Fetched.decoded raw) =
        Except.error SkinFetchExc.imageSizeError) := by
  refine ⟨?_, ?_, ?_⟩
  · intro f img h
    match f with
    | Fetched.valueError => simp [skin_from_url] at h
    | Fetched.unidentifiedImage => simp [skin_from_url] at h
    | Fetched.decoded raw =>
      simp only [skin_from_url] at h
      by_cases h32 : (convertRGBA raw).size = (64, 32)
      · rw [if_pos h32] at h
        have hsz : (old_to_new_skin (convertRGBA raw)).size = (64, 64) := rfl
        rw [if_neg (fun hne => hne hsz)] at h
        cases h
        exact ⟨rfl, rfl⟩
      · rw [if_neg h32] at h
        by_cases h64 : (convertRGBA raw).size = (64, 64)
        · rw [if_neg (fun hne => hne h64)] at h
          cases h
          exact ⟨h64, rfl⟩
        · rw [if_pos h64] at h
          simp at h
  · intro raw h32
    have hc : (convertRGBA raw).size = (64, 32) := h32
    simp only [skin_from_url, if_pos hc]
  · intro raw h32 h64
    have h32' : ¬((convertRGBA raw).size = (64, 32)) := h32
    have h64' : (convertRGBA raw).size ≠ (64, 64) := h64
    simp only [skin_from_url]
    rw [if_neg h32', if_pos h64']

/-- C1: every image `skin_from_url` returns is RGBA and exactly (64, 64);
an image decoded at exactly (64, 32) is first upgraded by
`old_to_new_skin` and then subjected to the (64, 64) check; and an image
that is neither (64, 32) nor (64, 64) fails with `ImageSizeError`. -/
theorem c1_normalizer_returns_64x64 :
    (∀ (f : Fetched) (img : Image), skin_from_url f = Except.ok img →
      img.size = (64, 64) ∧ img.mode = ImgMode.rgba) ∧
    (∀ raw : Image, raw.size = (64, 32) →
      skin_from_url (Fetched.decoded raw) =
        (if (old_to_new_skin (convertRGBA raw)).size ≠ (64, 64)
         then Except.error SkinFetchExc.imageSizeError
         else Except.ok (old_to_new_skin (convertRGBA raw)))) ∧
    (∀ raw : Image, raw.size ≠ (64, 32) → raw.size ≠ (64, 64) →
      skin_from_url (Fetched.decoded raw) =
        Except.error SkinFetchExc.imageSizeError) :=
  skin_from_url_spec

/-- Witness for C1: the legacy sample is upgraded and accepted, and the
tiny sample is rejected with the skin-size error. -/
theorem c1_witness :
    skin_from_url (Fetched.decoded legacySample) =
      Except.ok (old_to_new_skin (convertRGBA legacySample)) ∧
    skin_from_url (Fetched.decoded tinySample) =
      Except.error SkinFetchExc.imageSizeError := by
  constructor
  · have h := c1_normalizer_returns_64x64.2.1 legacySample (by rfl)
    simpa using h
  · exact c1_normalizer_returns_64x64.2.2 tinySample (by decide) (by decide)

/-- The margin post-processing step (main.py lines 162-165): allocate a
fresh transparent RGBA canvas of size (width + margin + margin,
height + margin + margin) via `Image.new('RGBA', ...)` and paste the
composited image at offset (margin, margin). -/
def addMargin (img : Image) (margin : Nat) : Image :=
  { width := img.width + margin + margin
    height := img.height + margin + margin
    mode := ImgMode.rgba
    pix := fun x y =>
      if margin ≤ x ∧ x < margin + img.width ∧ margin ≤ y ∧ y < margin + img.height
      then img.pix (x - margin) (y - margin)
      else transparent }

/-- The upscale post-processing step (main.py lines 166-167):
`image.resize((width*upscale, height*upscale), Image.NEAREST)`.  For an
exact integer factor, PIL's nearest-neighbour sampling maps output pixel
(x, y) to source pixel (x / upscale, y / upscale). -/
def upscaleNearest (img : Image) (upscale : Nat) : Image :=
  { width := img.width * upscale
    height := img.height * upscale
    mode := img.mode
    pix := fun x y => img.pix (x / upscale) (y / upscale) }

/-- C3: for 1 ≤ margin ≤ 8, the margin step yields an image of exactly
(w + 2·margin, h + 2·margin); every pixel of the margin-wide border on all
four sides is fully transparent; and every original pixel reappears
unchanged at offset (margin, margin). -/
theorem c3_margin_border_transparent (img : Image) (m : Nat)
    (h1 : 1 ≤ m) (h8 : m ≤ 8) :
    (addMargin img m).width = img.width + 2 * m ∧
    (addMargin img m).height = img.height + 2 * m ∧
    (∀ x y, x < (addMargin img m).width → y < (addMargin img m).height →
      (x < m ∨ m + img.width ≤ x ∨ y < m ∨ m + img.height ≤ y) →
      (addMargin img m).pix x y = transparent) ∧
    (∀ x y, x < img.width → y < img.height →
      (addMargin img m).pix (x + m) (y + m) = img.pix x y) := by
  refine ⟨by simp [addMargin]; omega, by simp [addMargin]; omega, ?_, ?_⟩
  · intro x y hx hy hborder
    simp only [addMargin]
    rw [if_neg]
    omega
  · intro x y hx hy
    simp only [addMargin]
    rw [if_pos (by omega)]
    congr 1 <;> omega

/-- Witness for C3: a concrete 4×4 image with margin 2. -/
theorem c3_witness :
    (addMargin legacySample 2).width = legacySample.width + 2 * 2 ∧
    (addMargin legacySample 2).pix 0 0 = transparent ∧
    (addMargin legacySample 2).pix (3 + 2) (5 + 2) = legacySample.pix 3 5 := by
  have h := c3_margin_border_transparent legacySample 2 (by decide) (by decide)
  exact ⟨h.1, h.2.2.1 0 0 (by decide) (by decide) (Or.inl (by decide)),
         h.2.2.2 3 5 (by decide) (by decide)⟩

/-- C4: for 2 ≤ upscale ≤ 8, the upscale step yields an image of exactly
(w·upscale, h·upscale), and every output pixel inside the bounds equals
exactly some source pixel inside the source bounds (nearest-neighbour:
no blending). -/
theorem c4_upscale_nearest (img : Image) (u : Nat)
    (h2 : 2 ≤ u) (h8 : u ≤ 8) :
    (upscaleNearest img u).width = img.width * u ∧
    (upscaleNearest img u).height = img.height * u ∧
    (∀ x y, x < (upscaleNearest img u).width → y < (upscaleNearest img u).height →
      ∃ i j, i < img.width ∧ j < img.height ∧
        (upscaleNearest img u).pix x y = img.pix i j) := by
  refine ⟨rfl, rfl, ?_⟩
  intro x y hx hy
  have hu : 0 < u := by omega
  refine ⟨x / u, y / u, ?_, ?_, rfl⟩
  · exact (Nat.div_lt_iff_lt_mul hu).mpr hx
  · exact (Nat.div_lt_iff_lt_mul hu).mpr hy

/-- Witness for C4: a concrete 64×32 image upscaled by 3. -/
theorem c4_witness :
    (upscaleNearest legacySample 3).width = legacySample.width * 3 ∧
    ∃ i j, i < legacySample.width ∧ j < legacySample.height ∧
      (upscaleNearest legacySample 3).pix 100 50 = legacySample.pix i j := by
  have h := c4_upscale_nearest legacySample 3 (by decide) (by decide)
  exact ⟨h.1, h.2.2 100 50 (by decide) (by decide)⟩

/-- The cache-key suffix tokens (main.py lines 116-123): `o` when the
overlay is enabled, `m<margin>` when margin > 0, `u<upscale>` when
upscale > 1, then `.png`, in that fixed order. -/
def deriveKey (tail : String) (overlay : Bool) (margin upscale : Nat) : String :=
  let filename := tail
  let filename := if overlay then filename ++ "o" else filename
  let filename := if margin > 0 then filename ++ ("m" ++ toString margin) else filename
  let filename := if upscale > 1 then filename ++ ("u" ++ toString upscale) else filename
  filename ++ ".png"

/-- The part of the derived key that follows the identifier tail. -/
def optSuffix (overlay : Bool) (margin upscale : Nat) : String :=
  (if overlay then "o" else "") ++
    ((if margin > 0 then "m" ++ toString margin else "") ++
      ((if upscale > 1 then "u" ++ toString upscale else "") ++ ".png"))

theorem str_append_left_cancel {a b c : String} (h : a ++ b = a ++ c) : b = c := by
  apply String.ext
  have hd := congrArg String.data h
  simp only [String.data_append] at hd
  exact List.append_cancel_left hd

theorem deriveKey_eq_tail_append (tail : String) (o : Bool) (m u : Nat) :
    deriveKey tail o m u = tail ++ optSuffix o m u := by
  apply String.ext
  by_cases ho : o = true <;> by_cases hm : 0 < m <;> by_cases hu : 1 < u <;>
    simp [deriveKey, optSuffix, ho, hm, hu, String.data_append, List.append_assoc]

theorem optSuffix_overlay_ne :
    ∀ m : Nat, m < 9 → ∀ u : Nat, u < 9 →
      optSuffix true m u ≠ optSuffix false m u := by decide

theorem optSuffix_margin_inj :
    ∀ o : Bool, ∀ u : Nat, u < 9 → ∀ m1 : Nat, m1 < 9 → ∀ m2 : Nat, m2 < 9 →
      m1 ≠ m2 → optSuffix o m1 u ≠ optSuffix o m2 u := by decide

theorem optSuffix_upscale_inj :
    ∀ o : Bool, ∀ m : Nat, m < 9 → ∀ v1 : Nat, v1 < 8 → ∀ v2 : Nat, v2 < 8 →
      v1 ≠ v2 → optSuffix o m (v1 + 1) ≠ optSuffix o m (v2 + 1) := by decide

/-- C2: the derived key is the tail followed by the option tokens in their
fixed order, and for any fixed tail, flipping the overlay flag, changing
the margin (both within the documented 0-8 range), or changing the upscale
(within the documented 1-8 range) each changes the derived key. -/
theorem c2_key_determined_by_options
    (tail : String) (o o' : Bool) (m m' u u' : Nat)
    (hm : m ≤ 8) (hm' : m' ≤ 8)
    (hu1 : 1 ≤ u) (hu : u ≤ 8) (hu1' : 1 ≤ u') (hu' : u' ≤ 8) :
    deriveKey tail o m u = tail ++ optSuffix o m u ∧
    (o ≠ o' → deriveKey tail o m u ≠ deriveKey tail o' m u) ∧
    (m ≠ m' → deriveKey tail o m u ≠ deriveKey tail o m' u) ∧
    (u ≠ u' → deriveKey tail o m u ≠ deriveKey tail o m u') := by
  refine ⟨deriveKey_eq_tail_append tail o m u, ?_, ?_, ?_⟩
  · intro hne heq
    rw [deriveKey_eq_tail_append, deriveKey_eq_tail_append] at heq
    have hs := str_append_left_cancel heq
    match o, o', hne with
    | true, false, _ =>
      exact optSuffix_overlay_ne m (by omega) u (by omega) hs
    | false, true, _ =>
      exact optSuffix_overlay_ne m (by omega) u (by omega) hs.symm
    | true, true, hne => exact hne rfl
    | false, false, hne => exact hne rfl
  · intro hne heq
    rw [deriveKey_eq_tail_append, deriveKey_eq_tail_append] at heq
    exact optSuffix_margin_inj o u (by omega) m (by omega) m' (by omega) hne
      (str_append_left_cancel heq)
  · intro hne heq
    rw [deriveKey_eq_tail_append, deriveKey_eq_tail_append] at heq
    have e : u - 1 + 1 = u := by omega
    have e' : u' - 1 + 1 = u' := by omega
    have hs := str_append_left_cancel heq
    rw [← e, ← e'] at hs
    exact optSuffix_upscale_inj o m (by omega) (u - 1) (by omega) (u' - 1)
      (by omega) (by omega) hs

/-- Witness for C2: concrete keys for a concrete tail differ when one
option changes. -/
theorem c2_witness :
    deriveKey "abc" true 2 3 = "abc" ++ optSuffix true 2 3 ∧
    deriveKey "abc" true 2 3 ≠ deriveKey "abc" false 2 3 ∧
    deriveKey "abc" true 2 3 ≠ deriveKey "abc" true 4 3 ∧
    deriveKey "abc" true 2 3 ≠ deriveKey "abc" true 2 5 := by
  have h := c2_key_determined_by_options "abc" true false 2 4 3 5
    (by decide) (by decide) (by decide) (by decide) (by decide) (by decide)
  exact ⟨h.1, h.2.1 (by decide), h.2.2.1 (by decide), h.2.2.2 (by decide)⟩

/-- Python's `s[-16:-1]` (main.py lines 103, 107, 109): the characters
with indices in [max(0, len-16), len-1), i.e. drop everything before the
last 16 characters, then drop the final character. -/
def pyTailSlice (s : String) : String :=
  ⟨(s.data.drop (s.data.length - 16)).dropLast⟩

/-- Python's `s.rsplit('.', 1)[0]` (main.py line 114): everything before
the last `'.'` when one occurs, the whole string otherwise. -/
def stripExt (s : String) : String :=
  if s.data.contains '.' then
    ⟨((s.data.reverse.dropWhile (fun c => c != '.')).drop 1).reverse⟩
  else s

/-- Python's `s.split('/')` on a character list: the (always nonempty)
list of chunks between occurrences of the separator. -/
def pySplit (sep : Char) : List Char → List (List Char)
  | [] => [[]]
  | c :: rest =>
    match pySplit sep rest with
    | [] => [[]]
    | p :: ps => if c = sep then [] :: p :: ps else (c :: p) :: ps

/-- Python's `s.split('/')[-1]` (main.py lines 103, 107): the final path
segment of a URL. -/
def lastSegment (s : String) : String :=
  ⟨(pySplit '/' s.data).getLastD []⟩

/-- The identifier tail actually derived from a final path segment or
inline payload (main.py lines 103/107/109 and 114): slice `[-16:-1]`,
then strip a trailing extension. -/
def sourceTail (s : String) : String := stripExt (pyTailSlice s)

/-- The cache filename for a URL source (main.py lines 107, 114-123):
tail of the URL's last path segment plus the option tokens. -/
def urlFilename (skin_url : String) (o : Bool) (m u : Nat) : String :=
  deriveKey (sourceTail (lastSegment skin_url)) o m u

/-- The cache filename for an inline base64 source (main.py lines 109,
114-123): tail of the payload plus the option tokens. -/
def base64Filename (b : String) (o : Bool) (m u : Nat) : String :=
  deriveKey (sourceTail b) o m u

/-- The identifier tail as C6 words it: the last 15 characters of the
segment or payload, with any trailing extension stripped.  (Spec-worded
definition, for comparison with `sourceTail`.) -/
def specLast15 (s : String) : String :=
  ⟨s.data.drop (s.data.length - 15)⟩

/-- Tail per the claim's words: last 15 characters, extension stripped. -/
def specClaimTail (s : String) : String := stripExt (specLast15 s)

theorem dropLast_drop_comm {α : Type} (l : List α) (k : Nat) :
    (l.drop k).dropLast = l.dropLast.drop k := by
  rw [List.dropLast_eq_take, List.dropLast_eq_take, List.drop_take, List.length_drop]
  congr 1
  omega

/-- The `[-16:-1]` slice equals: drop the final character, then keep the
last (at most) 15 characters. -/
theorem pyTailSlice_data (s : String) :
    (pyTailSlice s).data = s.data.dropLast.drop (s.data.dropLast.length - 15) := by
  show (s.data.drop (s.data.length - 16)).dropLast = _
  rw [dropLast_drop_comm, List.length_dropLast]
  congr 1

/-- C6 counterexample: on a 17-character segment the code's tail and the
claim's "last 15 characters" tail disagree (the code drops the final
character before truncating). -/
theorem c6_counterexample :
    sourceTail "abcdefghijklmnopq" ≠ specClaimTail "abcdefghijklmnopq" := by
  decide

theorem pyTailSlice_eq_spec (s : String) :
    pyTailSlice s = specLast15 ⟨s.data.dropLast⟩ := by
  apply String.ext
  simp only [pyTailSlice_data, specLast15]

/-- C6 amended: the tail is the last 15 characters of the segment or
payload with its final character removed (Python slice `[-16:-1]`), with
any trailing extension stripped. -/
theorem c6_tail_is_last15_of_dropLast (s : String) :
    sourceTail s = specClaimTail ⟨s.data.dropLast⟩ := by
  unfold sourceTail specClaimTail
  rw [pyTailSlice_eq_spec]

/-- C10: two segments or payloads that agree except possibly at their
final character (equal after `dropLast`) derive identical cache
filenames, for both the base64 path and the URL path. -/
theorem c10_last_char_ignored :
    (∀ s t : String, ∀ o : Bool, ∀ m u : Nat,
      s.data.dropLast = t.data.dropLast →
      base64Filename s o m u = base64Filename t o m u) ∧
    (∀ s t : String, ∀ o : Bool, ∀ m u : Nat,
      (lastSegment s).data.dropLast = (lastSegment t).data.dropLast →
      urlFilename s o m u = urlFilename t o m u) := by
  have key : ∀ s t : String, s.data.dropLast = t.data.dropLast →
      sourceTail s = sourceTail t := by
    intro s t h
    unfold sourceTail
    rw [pyTailSlice_eq_spec, pyTailSlice_eq_spec, h]
  constructor
  · intro s t o m u h
    unfold base64Filename
    rw [key s t h]
  · intro s t o m u h
    unfold urlFilename
    rw [key (lastSegment s) (lastSegment t) h]

/-- Witness for C10: two payloads differing only in the final character
yield the same cache filename. -/
theorem c10_witness :
    base64Filename "texture_abcdef1" true 2 3 =
      base64Filename "texture_abcdef2" true 2 3 := by
  exact c10_last_char_ignored.1 "texture_abcdef1" "texture_abcdef2" true 2 3 (by decide)

theorem pySplit_ne_nil (sep : Char) (l : List Char) : pySplit sep l ≠ [] := by
  cases l with
  | nil => simp [pySplit]
  | cons c rest =>
    simp only [pySplit]
    cases pySplit sep rest with
    | nil => simp
    | cons p ps => by_cases hc : c = sep <;> simp [hc]

theorem pySplit_no_sep (sep : Char) (l : List Char) :
    ∀ part ∈ pySplit sep l, sep ∉ part := by
  induction l with
  | nil =>
    intro part hp
    simp only [pySplit, List.mem_singleton] at hp
    simp [hp]
  | cons c rest ih =>
    intro part hp
    simp only [pySplit] at hp
    cases hps : pySplit sep rest with
    | nil => exact absurd hps (pySplit_ne_nil sep rest)
    | cons p ps =>
      rw [hps] at hp
      have hp' : part ∈ (if c = sep then [] :: p :: ps else (c :: p) :: ps) := hp
      by_cases hc : c = sep
      · rw [if_pos hc] at hp'
        rcases List.mem_cons.1 hp' with h | h
        · simp [h]
        · exact ih part (hps ▸ h)
      · rw [if_neg hc] at hp'
        rcases List.mem_cons.1 hp' with h | h
        · subst h
          intro hmem
          rcases List.mem_cons.1 hmem with h1 | h1
          · exact hc h1.symm
          · exact ih p (hps ▸ List.mem_cons_self p ps) h1
        · exact ih part (hps ▸ List.mem_cons.2 (Or.inr h))

theorem lastSegment_no_slash (s : String) : ('/' : Char) ∉ (lastSegment s).data := by
  show ('/' : Char) ∉ (pySplit '/' s.data).getLastD []
  cases hps : pySplit '/' s.data with
  | nil => exact absurd hps (pySplit_ne_nil '/' s.data)
  | cons p ps =>
    have hmem : (p :: ps).getLastD [] ∈ p :: ps := by
      rw [List.getLastD_eq_getLast?, List.getLast?_eq_getLast (p :: ps) (by simp)]
      exact List.getLast_mem _
    exact pySplit_no_sep '/' s.data _ (hps ▸ hmem)

theorem pyTailSlice_subset (s : String) (c : Char)
    (h : c ∉ s.data) : c ∉ (pyTailSlice s).data := by
  intro hc
  exact h (List.drop_subset _ _ (List.dropLast_subset _ hc))

theorem stripExt_subset (s : String) (c : Char)
    (h : c ∉ s.data) : c ∉ (stripExt s).data := by
  intro hc
  unfold stripExt at hc
  by_cases hd : s.data.contains '.'
  · rw [if_pos hd] at hc
    have h1 : c ∈ (s.data.reverse.dropWhile (fun x => x != '.')).drop 1 :=
      List.mem_reverse.1 hc
    have h2 : c ∈ s.data.reverse.dropWhile (fun x => x != '.') :=
      List.drop_subset _ _ h1
    exact h (List.mem_reverse.1 ((List.dropWhile_sublist _).subset h2))
  · rw [if_neg hd] at hc
    exact h hc

theorem optSuffix_no_slash :
    ∀ o : Bool, ∀ m : Nat, m < 9 → ∀ u : Nat, u < 9 →
      ('/' : Char) ∉ (optSuffix o m u).data := by decide

/-- No character of the derived key other than those of the tail itself
is a path separator, for options in the documented ranges. -/
theorem deriveKey_no_slash (tail : String) (o : Bool) (m u : Nat)
    (hm : m ≤ 8) (hu : u ≤ 8) (htail : ('/' : Char) ∉ tail.data) :
    ('/' : Char) ∉ (deriveKey tail o m u).data := by
  rw [deriveKey_eq_tail_append, String.data_append]
  intro hc
  rcases List.mem_append.1 hc with h | h
  · exact htail h
  · exact optSuffix_no_slash o m (by omega) u (by omega) h

/-- C7 counterexample: a well-formed base64 payload (the standard base64
alphabet includes `/`) whose derived cache filename contains a path
separator. -/
theorem c7_counterexample :
    ('/' : Char) ∈ (base64Filename "abcd/efghijklmnop" true 0 1).data := by
  decide

/-- C7 amended: for player-name and skin-URL sources the filename is
derived from the URL's final path segment, so it never contains `/`; and
for a base64 payload the filename contains `/` only if the payload itself
does. -/
theorem c7_no_slash_except_base64 :
    (∀ url : String, ∀ o : Bool, ∀ m u : Nat, m ≤ 8 → u ≤ 8 →
      ('/' : Char) ∉ (urlFilename url o m u).data) ∧
    (∀ b : String, ∀ o : Bool, ∀ m u : Nat, m ≤ 8 → u ≤ 8 →
      ('/' : Char) ∉ b.data →
      ('/' : Char) ∉ (base64Filename b o m u).data) := by
  constructor
  · intro url o m u hm hu
    exact deriveKey_no_slash _ o m u hm hu
      (stripExt_subset _ _ (pyTailSlice_subset _ _ (lastSegment_no_slash url)))
  · intro b o m u hm hu hb
    exact deriveKey_no_slash _ o m u hm hu
      (stripExt_subset _ _ (pyTailSlice_subset _ _ hb))

/-- Witness for C7 (amended): a concrete URL-derived filename has no
path separator. -/
theorem c7_witness :
    ('/' : Char) ∉ (urlFilename "http://textures.example/texture/abcdef.png" true 2 3).data := by
  exact c7_no_slash_except_base64.1 "http://textures.example/texture/abcdef.png"
    true 2 3 (by decide) (by decide)

/-- Python truthiness of an optional string query parameter: `None` and
the empty string are falsy. -/
def truthy : Option String → Bool
  | none => false
  | some s => !s.isEmpty

/-- Outcome of `skin_url_from_player` (main.py lines 29-56): either
`UnknownPlayerError` or a skin URL with a slim-model hint. -/
inductive PlayerLookup where
  | unknown : PlayerLookup
  | found : String → Bool → PlayerLookup

/-- The source-selection and filename-derivation phase of `api_template`
(main.py lines 100-123): pick the first truthy source among player,
skin_url, skin_base64, derive the identifier tail from it, append the
option tokens; with no truthy source, return the 404 response of line 111
immediately — before any cache lookup, render, or cache write. -/
def resolveFilename (player skin_url skin_base64 : Option String)
    (lookup : PlayerLookup) (overlay : Bool) (margin upscale : Nat) :
    Except (Nat × String) String :=
  if truthy player then
    match lookup with
    | PlayerLookup.unknown => Except.error (404, "Unknown player")
    | PlayerLookup.found url _ =>
      Except.ok (deriveKey (sourceTail (lastSegment url)) overlay margin upscale)
  else if truthy skin_url then
    Except.ok (deriveKey (sourceTail (lastSegment (skin_url.getD "")))
      overlay margin upscale)
  else if truthy skin_base64 then
    Except.ok (deriveKey (sourceTail (skin_base64.getD "")) overlay margin upscale)
  else
    Except.error (404, "You must specify a Player Name, Skin URL or Skin File.")

/-- C8: when none of the three source parameters is present (absent or
empty), `api_template` returns the 404 response with exactly the detail
"You must specify a Player Name, Skin URL or Skin File.", before the
cache is consulted and before anything is rendered or stored. -/
theorem c8_missing_source_404 (player skin_url skin_base64 : Option String)
    (lookup : PlayerLookup) (overlay : Bool) (margin upscale : Nat)
    (hp : truthy player = false) (hu : truthy skin_url = false)
    (hb : truthy skin_base64 = false) :
    resolveFilename player skin_url skin_base64 lookup overlay margin upscale =
      Except.error (404, "You must specify a Player Name, Skin URL or Skin File.") := by
  unfold resolveFilename
  rw [if_neg (by simp [hp]), if_neg (by simp [hu]), if_neg (by simp [hb])]

/-- Witness for C8: all three parameters absent, and the empty-string
player case. -/
theorem c8_witness :
    resolveFilename none none none PlayerLookup.unknown true 0 1 =
      Except.error (404, "You must specify a Player Name, Skin URL or Skin File.") ∧
    resolveFilename (some "") none none PlayerLookup.unknown true 0 1 =
      Except.error (404, "You must specify a Player Name, Skin URL or Skin File.") := by
  constructor
  · exact c8_missing_source_404 none none none PlayerLookup.unknown true 0 1
      (by decide) (by decide) (by decide)
  · exact c8_missing_source_404 (some "") none none PlayerLookup.unknown true 0 1
      (by decide) (by decide) (by decide)

/-- The Python exceptions that can arise while acquiring a skin on a
cache miss. -/
inductive PyExc where
  | urlError : PyExc
  | imageSizeError : PyExc
  | unidentifiedImage : PyExc
  | binasciiError : PyExc
deriving DecidableEq, Repr

/-- What the cache-miss skin-acquisition step of a branch produces: a skin
handed on to `render_function`, an HTTP error response, or a Python
exception that no `except` clause of `api_template` catches. -/
inductive BranchResult where
  | useSkin : Image → BranchResult
  | response : Nat → String → BranchResult
  | raised : PyExc → BranchResult

/-- The player / skin_url cache-miss branches (main.py lines 132-150):
`skin_from_url` is called and its two exceptions are converted to 404
responses. -/
def urlBranch (fetched : Fetched) : BranchResult :=
  match skin_from_url fetched with
  | Except.ok img => BranchResult.useSkin img
  | Except.error SkinFetchExc.urlError => BranchResult.response 404 "Invalid URL"
  | Except.error SkinFetchExc.imageSizeError =>
      BranchResult.response 404 "Image must be 64x64 pixels large"

/-- The skin_base64 cache-miss branch (main.py lines 151-159):
`Image.open` is applied to the decoded bytes and its result is used
directly — `skin_from_url` is never called, so no RGBA conversion, no
legacy upgrade and no size check happen.  The surrounding `except` clause
catches only `UrlError`; `Image.open` raises `UnidentifiedImageError` on
undecodable bytes, so that exception propagates uncaught. -/
def base64Branch (opened : Except PyExc Image) : BranchResult :=
  match opened with
  | Except.ok img => BranchResult.useSkin img
  | Except.error e =>
    if e = PyExc.urlError then BranchResult.response 404 "Invalid File, must be Image"
    else BranchResult.raised e

/-- C5 counterexample: a base64 source whose decoded image is 10×10 and
not in RGBA mode is handed to the render function exactly as decoded —
the Skin Normalizer is not invoked and no skin-size failure occurs. -/
theorem c5_counterexample :
    base64Branch (Except.ok tinySample) = BranchResult.useSkin tinySample ∧
    tinySample.size ≠ (64, 64) ∧ tinySample.mode ≠ ImgMode.rgba := by
  exact ⟨rfl, by decide, by decide⟩

/-- C5 amended: on a cache miss the player and skin_url sources do pass
through the Skin Normalizer (`skin_from_url`), so any skin they hand to
the render function is RGBA and exactly (64, 64), with non-(64, 64)
images rejected by the 404 skin-size response; the base64 source bypasses
the normalizer entirely and hands the decoded image over unchanged. -/
theorem c5_base64_bypasses_normalizer :
    (∀ (f : Fetched) (img : Image), urlBranch f = BranchResult.useSkin img →
      img.size = (64, 64) ∧ img.mode = ImgMode.rgba) ∧
    (∀ raw : Image, raw.size ≠ (64, 32) → raw.size ≠ (64, 64) →
      urlBranch (Fetched.decoded raw) =
        BranchResult.response 404 "Image must be 64x64 pixels large") ∧
    (∀ img : Image, base64Branch (Except.ok img) = BranchResult.useSkin img) := by
  refine ⟨?_, ?_, ?_⟩
  · intro f img h
    unfold urlBranch at h
    cases hs : skin_from_url f with
    | ok img' =>
      rw [hs] at h
      cases h
      exact skin_from_url_spec.1 f img hs
    | error e =>
      rw [hs] at h
      cases e <;> simp at h
  · intro raw h32 h64
    unfold urlBranch
    rw [skin_from_url_spec.2.2 raw h32 h64]
  · intro img
    rfl

/-- Witness for C5 (amended): a decoded sample accepted by the normalizer
is 64×64 RGBA, a wrong-sized one draws the 404 size response, and the
base64 branch passes the tiny sample through untouched. -/
theorem c5_witness :
    (old_to_new_skin (convertRGBA legacySample)).size = (64, 64) ∧
    urlBranch (Fetched.decoded tinySample) =
      BranchResult.response 404 "Image must be 64x64 pixels large" ∧
    base64Branch (Except.ok tinySample) = BranchResult.useSkin tinySample := by
  refine ⟨?_, ?_, c5_base64_bypasses_normalizer.2.2 tinySample⟩
  · exact (c5_base64_bypasses_normalizer.1 (Fetched.decoded legacySample)
      (old_to_new_skin (convertRGBA legacySample)) (by rfl)).1
  · exact c5_base64_bypasses_normalizer.2.1 tinySample (by decide) (by decide)

/-- C9: on undecodable inline bytes, `Image.open` raises
`UnidentifiedImageError`; the `except UrlError` clause of the base64
branch (main.py lines 156-159) never matches it, so the exception
propagates unhandled instead of producing the 404 "Invalid File, must be
Image" response the handler was written for. -/
theorem c9_invalid_image_unhandled :
    base64Branch (Except.error PyExc.unidentifiedImage) =
      BranchResult.raised PyExc.unidentifiedImage ∧
    base64Branch (Except.error PyExc.unidentifiedImage) ≠
      BranchResult.response 404 "Invalid File, must be Image" := by
  exact ⟨rfl, by simp [base64Branch]⟩

end Skindentity
